import Mathlib

/-!
Verification of the resolver abstraction crate `resolver_types`.

The crate defines a shared contract for DNS resolver backends: two traits
(a blocking `Resolver` and a suspend-capable `AsyncResolver`) with
backend-supplied primitives `resolve_specific` / `resolve_many` and
default-derived operations `resolve`, `clear_cache` and
`reload_system_config`, together with the shared data vocabulary
`QueryType`, `Record`, `PriorityEntry`, `ResolveError`, `ResolveResult`.

The embedding below models a backend as a structure of its required
operations; the default trait methods become Lean functions over that
structure, translated directly from `src/lib.rs`.
-/

namespace ResolverTypes

/-- Model of `std::net::IpAddr`: a v4 or v6 address (segment values kept
abstract as naturals; their internal structure is irrelevant here). -/
inductive IpAddr where
  | V4 (a b c d : Nat)
  | V6 (a b c d e f g h : Nat)
deriving DecidableEq

/-- Model of `std::io::Error`: opaque at this layer, identified by a code. -/
structure IOError where
  code : Nat
deriving DecidableEq

/-- `pub enum QueryType { AAAA, A, MX, TXT }` -/
inductive QueryType where
  | AAAA
  | A
  | MX
  | TXT
deriving DecidableEq

/-- `pub struct PriorityEntry<T> { pub priority: isize, pub value: T }` -/
structure PriorityEntry (T : Type) where
  priority : Int
  value : T
deriving DecidableEq

/-- `pub enum Record { IpAddr(IpAddr), MX(Vec<PriorityEntry<IpAddr>>), TXT(Vec<String>) }` -/
inductive Record where
  | IpAddr (ip : IpAddr)
  | MX (entries : List (PriorityEntry IpAddr))
  | TXT (texts : List String)
deriving DecidableEq

/-- `pub enum ResolveError { IO(std::io::Error), NotResolved }`
(the `IO` constructor is spelled `IOErr` here). -/
inductive ResolveError where
  | IOErr (e : IOError)
  | NotResolved
deriving DecidableEq

/-- `pub type ResolveResult<T> = Result<T, ResolveError>;` -/
abbrev ResolveResult (T : Type) : Type := Except ResolveError T

/-- A backend implementing the blocking `Resolver` trait: the two required
operations. The default methods are defined below as functions. -/
structure Resolver where
  resolve_specific : QueryType → ResolveResult Record
  resolve_many : List QueryType → ResolveResult (List Record)

/-- A backend implementing the `AsyncResolver` trait. Suspension points are
erased by the shallow embedding, so the required operations have the same
shape as the blocking form. -/
structure AsyncResolver where
  resolve_specific : QueryType → ResolveResult Record
  resolve_many : List QueryType → ResolveResult (List Record)

/-- The record-to-address selection inside the default `resolve` body:
`records.into_iter().filter_map(|record| match record { Record::IpAddr(ip) => Some(ip), _ => None }).next()`. -/
def firstIpAddr (records : List Record) : Option IpAddr :=
  (records.filterMap fun record =>
    match record with
    | Record.IpAddr ip => some ip
    | _ => none).head?

/-- Default `Resolver::resolve` (src/lib.rs lines 55-70): query
`resolve_many([AAAA, A])`, propagate its error via `?`, otherwise take the
first `Record::IpAddr` or fail with `NotResolved`. -/
def Resolver.resolve (r : Resolver) : ResolveResult IpAddr :=
  match r.resolve_many [QueryType.AAAA, QueryType.A] with
  | Except.error e => Except.error e
  | Except.ok records =>
    match firstIpAddr records with
    | some ip => Except.ok ip
    | none => Except.error ResolveError.NotResolved

/-- Default `Resolver::clear_cache` (lines 79-81): `Err(())`. -/
def Resolver.clear_cache (_ : Resolver) : Except Unit Unit :=
  Except.error ()

/-- Default `Resolver::reload_system_config` (lines 85-87): `Err(())`. -/
def Resolver.reload_system_config (_ : Resolver) : Except Unit Unit :=
  Except.error ()

/-- Default `AsyncResolver::resolve` (src/lib.rs lines 15-30); identical
body to the blocking form, with the `await` point erased. -/
def AsyncResolver.resolve (r : AsyncResolver) : ResolveResult IpAddr :=
  match r.resolve_many [QueryType.AAAA, QueryType.A] with
  | Except.error e => Except.error e
  | Except.ok records =>
    match firstIpAddr records with
    | some ip => Except.ok ip
    | none => Except.error ResolveError.NotResolved

/-- Default `AsyncResolver::clear_cache` (lines 41-43): `Err(())`. -/
def AsyncResolver.clear_cache (_ : AsyncResolver) : Except Unit Unit :=
  Except.error ()

/-- Default `AsyncResolver::reload_system_config` (lines 47-49): `Err(())`. -/
def AsyncResolver.reload_system_config (_ : AsyncResolver) : Except Unit Unit :=
  Except.error ()

/-- Whether a record carries the `Record::IpAddr` tag. -/
def Record.isIpAddr : Record → Bool
  | Record.IpAddr _ => true
  | _ => false

/-- Whether a record carries the `Record::MX` tag. -/
def Record.isMX : Record → Bool
  | Record.MX _ => true
  | _ => false

/-- Whether a record carries the `Record::TXT` tag. -/
def Record.isTXT : Record → Bool
  | Record.TXT _ => true
  | _ => false

/-- Reading the entry list back out of a `Record::MX` value. -/
def Record.mxEntries : Record → Option (List (PriorityEntry ResolverTypes.IpAddr))
  | Record.MX entries => some entries
  | _ => none

/-- One observable call to a backend-supplied operation. -/
inductive BackendCall where
  | resolveSpecific (query : QueryType)
  | resolveMany (queries : List QueryType)
  | clearCache
  | reloadSystemConfig
deriving DecidableEq

/-- `Resolver.resolve` instrumented with the list of backend calls it
performs, in order: the body makes exactly the one `resolve_many` call on
every control path. -/
def Resolver.resolveTraced (r : Resolver) :
    ResolveResult IpAddr × List BackendCall :=
  match r.resolve_many [QueryType.AAAA, QueryType.A] with
  | Except.error e =>
    (Except.error e, [BackendCall.resolveMany [QueryType.AAAA, QueryType.A]])
  | Except.ok records =>
    match firstIpAddr records with
    | some ip =>
      (Except.ok ip, [BackendCall.resolveMany [QueryType.AAAA, QueryType.A]])
    | none =>
      (Except.error ResolveError.NotResolved,
       [BackendCall.resolveMany [QueryType.AAAA, QueryType.A]])

/-- `AsyncResolver.resolve` instrumented the same way. -/
def AsyncResolver.resolveTraced (r : AsyncResolver) :
    ResolveResult IpAddr × List BackendCall :=
  match r.resolve_many [QueryType.AAAA, QueryType.A] with
  | Except.error e =>
    (Except.error e, [BackendCall.resolveMany [QueryType.AAAA, QueryType.A]])
  | Except.ok records =>
    match firstIpAddr records with
    | some ip =>
      (Except.ok ip, [BackendCall.resolveMany [QueryType.AAAA, QueryType.A]])
    | none =>
      (Except.error ResolveError.NotResolved,
       [BackendCall.resolveMany [QueryType.AAAA, QueryType.A]])

/-- The IPv6 loopback address `::1`. -/
def ipv6Loopback : IpAddr := IpAddr.V6 0 0 0 0 0 0 0 1

/-- A concrete backend whose `resolve_many` answers `[Record::IpAddr(::1)]`. -/
def loopbackBackend : Resolver :=
  ⟨fun _ => Except.error ResolveError.NotResolved,
   fun _ => Except.ok [Record.IpAddr ipv6Loopback]⟩

/-- A concrete backend whose `resolve_many` answers only a TXT record. -/
def txtBackend : Resolver :=
  ⟨fun _ => Except.error ResolveError.NotResolved,
   fun _ => Except.ok [Record.TXT ["v=spf1"]]⟩

/-- A concrete backend whose `resolve_many` fails with an I/O error. -/
def ioErrBackend : Resolver :=
  ⟨fun _ => Except.error ResolveError.NotResolved,
   fun _ => Except.error (ResolveError.IOErr ⟨7⟩)⟩

/-- A concrete backend whose `resolve_many` answers only an MX record that
itself carries an address. -/
def mxOnlyBackend : Resolver :=
  ⟨fun _ => Except.error ResolveError.NotResolved,
   fun _ => Except.ok [Record.MX [⟨10, ipv6Loopback⟩]]⟩

/-- The async counterpart of `loopbackBackend`. -/
def loopbackAsyncBackend : AsyncResolver :=
  ⟨fun _ => Except.error ResolveError.NotResolved,
   fun _ => Except.ok [Record.IpAddr ipv6Loopback]⟩

/-- A second backend with the same `resolve_many` as `loopbackBackend` but a
different `resolve_specific`. -/
def loopbackBackendVariant : Resolver :=
  ⟨fun _ => Except.ok (Record.TXT []),
   fun _ => Except.ok [Record.IpAddr ipv6Loopback]⟩

/-! ### Helper lemmas about `firstIpAddr` -/

/-- `firstIpAddr` on an empty record list is `none`. -/
theorem firstIpAddr_nil : firstIpAddr [] = none := rfl

/-- The head of the record list is an address record: `firstIpAddr` picks it. -/
theorem firstIpAddr_cons_addr (ip : IpAddr) (records : List Record) :
    firstIpAddr (Record.IpAddr ip :: records) = some ip := rfl

/-- A non-address record at the head is skipped by `firstIpAddr`. -/
theorem firstIpAddr_cons_skip (rec : Record) (records : List Record)
    (h : rec.isIpAddr = false) :
    firstIpAddr (rec :: records) = firstIpAddr records := by
  cases rec with
  | IpAddr ip => exact absurd h (by simp [Record.isIpAddr])
  | MX entries => rfl
  | TXT texts => rfl

/-- If no record in the list is an address record, `firstIpAddr` is `none`. -/
theorem firstIpAddr_eq_none (records : List Record)
    (h : ∀ rec ∈ records, rec.isIpAddr = false) : firstIpAddr records = none := by
  induction records with
  | nil => rfl
  | cons rec rest ih =>
    rw [firstIpAddr_cons_skip rec rest (h rec (List.mem_cons_self rec rest))]
    exact ih fun r hr => h r (List.mem_cons_of_mem rec hr)

/-- If some record in the list is an address record, `firstIpAddr` is `some`. -/
theorem firstIpAddr_isSome (records : List Record)
    (h : ∃ rec ∈ records, rec.isIpAddr = true) :
    ∃ ip, firstIpAddr records = some ip := by
  induction records with
  | nil =>
    obtain ⟨rec, hmem, _⟩ := h
    exact absurd hmem (List.not_mem_nil rec)
  | cons rec rest ih =>
    cases rec with
    | IpAddr ip => exact ⟨ip, rfl⟩
    | MX entries =>
      obtain ⟨r, hmem, hr⟩ := h
      rcases List.mem_cons.mp hmem with heq | hmem2
      · rw [heq] at hr
        exact absurd hr (by simp [Record.isIpAddr])
      · rw [firstIpAddr_cons_skip (Record.MX entries) rest rfl]
        exact ih ⟨r, hmem2, hr⟩
    | TXT texts =>
      obtain ⟨r, hmem, hr⟩ := h
      rcases List.mem_cons.mp hmem with heq | hmem2
      · rw [heq] at hr
        exact absurd hr (by simp [Record.isIpAddr])
      · rw [firstIpAddr_cons_skip (Record.TXT texts) rest rfl]
        exact ih ⟨r, hmem2, hr⟩

/-- The address found by `firstIpAddr` was carried by a `Record.IpAddr` member
of the list. -/
theorem mem_of_firstIpAddr (records : List Record) (ip : IpAddr)
    (h : firstIpAddr records = some ip) : Record.IpAddr ip ∈ records := by
  induction records with
  | nil => exact absurd h (by rw [firstIpAddr_nil]; exact fun hc => Option.noConfusion hc)
  | cons rec rest ih =>
    cases rec with
    | IpAddr ip2 =>
      rw [firstIpAddr_cons_addr] at h
      injection h with h2
      rw [h2]
      exact List.mem_cons_self (Record.IpAddr ip) rest
    | MX entries =>
      rw [firstIpAddr_cons_skip (Record.MX entries) rest rfl] at h
      exact List.mem_cons_of_mem (Record.MX entries) (ih h)
    | TXT texts =>
      rw [firstIpAddr_cons_skip (Record.TXT texts) rest rfl] at h
      exact List.mem_cons_of_mem (Record.TXT texts) (ih h)

/-- A record tagged MX or TXT is not tagged as an address. -/
theorem not_isIpAddr_of_mx_or_txt (rec : Record)
    (h : rec.isMX = true ∨ rec.isTXT = true) : rec.isIpAddr = false := by
  cases rec with
  | IpAddr ip => rcases h with h | h <;> exact Bool.noConfusion h
  | MX entries => rfl
  | TXT texts => rfl

/-! ### Helper lemmas unfolding the default `resolve` bodies -/

/-- Unfolding `Resolver.resolve` when `resolve_many` succeeds. -/
theorem resolve_of_many_ok (r : Resolver) (records : List Record)
    (hmany : r.resolve_many [QueryType.AAAA, QueryType.A] = Except.ok records) :
    r.resolve = match firstIpAddr records with
      | some ip => Except.ok ip
      | none => Except.error ResolveError.NotResolved := by
  unfold Resolver.resolve
  rw [hmany]

/-- Unfolding `Resolver.resolve` when `resolve_many` fails: the `?` operator
propagates the error unchanged. -/
theorem resolve_of_many_error (r : Resolver) (e : ResolveError)
    (hmany : r.resolve_many [QueryType.AAAA, QueryType.A] = Except.error e) :
    r.resolve = Except.error e := by
  unfold Resolver.resolve
  rw [hmany]

/-- Unfolding `AsyncResolver.resolve` when `resolve_many` succeeds. -/
theorem async_resolve_of_many_ok (a : AsyncResolver) (records : List Record)
    (hmany : a.resolve_many [QueryType.AAAA, QueryType.A] = Except.ok records) :
    a.resolve = match firstIpAddr records with
      | some ip => Except.ok ip
      | none => Except.error ResolveError.NotResolved := by
  unfold AsyncResolver.resolve
  rw [hmany]

/-- Unfolding `AsyncResolver.resolve` when `resolve_many` fails. -/
theorem async_resolve_of_many_error (a : AsyncResolver) (e : ResolveError)
    (hmany : a.resolve_many [QueryType.AAAA, QueryType.A] = Except.error e) :
    a.resolve = Except.error e := by
  unfold AsyncResolver.resolve
  rw [hmany]

/-- The trace of the instrumented blocking `resolve` on every control path. -/
theorem resolveTraced_trace (r : Resolver) :
    (Resolver.resolveTraced r).2 =
      [BackendCall.resolveMany [QueryType.AAAA, QueryType.A]] := by
  unfold Resolver.resolveTraced
  split
  · rfl
  · split <;> rfl

/-- The instrumented blocking `resolve` computes the same result. -/
theorem resolveTraced_result (r : Resolver) :
    (Resolver.resolveTraced r).1 = r.resolve := by
  unfold Resolver.resolveTraced Resolver.resolve
  split
  · rfl
  · split <;> rfl

/-- The trace of the instrumented async `resolve` on every control path. -/
theorem async_resolveTraced_trace (a : AsyncResolver) :
    (AsyncResolver.resolveTraced a).2 =
      [BackendCall.resolveMany [QueryType.AAAA, QueryType.A]] := by
  unfold AsyncResolver.resolveTraced
  split
  · rfl
  · split <;> rfl

/-- The instrumented async `resolve` computes the same result. -/
theorem async_resolveTraced_result (a : AsyncResolver) :
    (AsyncResolver.resolveTraced a).1 = a.resolve := by
  unfold AsyncResolver.resolveTraced AsyncResolver.resolve
  split
  · rfl
  · split <;> rfl

/-! ### Claim theorems -/

/-- Claim C1: for every backend (blocking or async) whose `resolve_many` on
`[AAAA, A]` returns `Ok` with a list containing at least one record tagged
`Record::IpAddr`, the derived default `resolve()` returns `Ok` of the IP
address carried by the first `Record::IpAddr` record in that list. -/
theorem resolve_ok_first_address :
    (∀ (r : Resolver) (records : List Record),
      r.resolve_many [QueryType.AAAA, QueryType.A] = Except.ok records →
      (∃ rec ∈ records, rec.isIpAddr = true) →
      ∃ ip, firstIpAddr records = some ip ∧ r.resolve = Except.ok ip) ∧
    (∀ (a : AsyncResolver) (records : List Record),
      a.resolve_many [QueryType.AAAA, QueryType.A] = Except.ok records →
      (∃ rec ∈ records, rec.isIpAddr = true) →
      ∃ ip, firstIpAddr records = some ip ∧ a.resolve = Except.ok ip) := by
  constructor
  · intro r records hmany hsome
    obtain ⟨ip, hip⟩ := firstIpAddr_isSome records hsome
    refine ⟨ip, hip, ?_⟩
    rw [resolve_of_many_ok r records hmany, hip]
  · intro a records hmany hsome
    obtain ⟨ip, hip⟩ := firstIpAddr_isSome records hsome
    refine ⟨ip, hip, ?_⟩
    rw [async_resolve_of_many_ok a records hmany, hip]

/-- Witness for C1: the backend returning `[Record::IpAddr(::1)]` resolves to
`::1`. -/
theorem resolve_ok_first_address_witness :
    loopbackBackend.resolve = Except.ok ipv6Loopback := by
  obtain ⟨ip, hip, hres⟩ := resolve_ok_first_address.1 loopbackBackend
    [Record.IpAddr ipv6Loopback] rfl
    ⟨Record.IpAddr ipv6Loopback, List.mem_cons_self _ _, rfl⟩
  rw [firstIpAddr_cons_addr] at hip
  injection hip with h2
  rw [h2]
  exact hres

/-- Claim C2: for every backend (blocking or async) whose `resolve_many` on
`[AAAA, A]` returns `Ok` with an empty list or a list with no `Record::IpAddr`
record, the derived default `resolve()` returns `Err(ResolveError::NotResolved)`. -/
theorem resolve_notResolved_of_no_address :
    (∀ (r : Resolver) (records : List Record),
      r.resolve_many [QueryType.AAAA, QueryType.A] = Except.ok records →
      (∀ rec ∈ records, rec.isIpAddr = false) →
      r.resolve = Except.error ResolveError.NotResolved) ∧
    (∀ (a : AsyncResolver) (records : List Record),
      a.resolve_many [QueryType.AAAA, QueryType.A] = Except.ok records →
      (∀ rec ∈ records, rec.isIpAddr = false) →
      a.resolve = Except.error ResolveError.NotResolved) := by
  constructor
  · intro r records hmany hnone
    rw [resolve_of_many_ok r records hmany, firstIpAddr_eq_none records hnone]
  · intro a records hmany hnone
    rw [async_resolve_of_many_ok a records hmany, firstIpAddr_eq_none records hnone]

/-- Witness for C2: the backend returning only `[Record::TXT(["v=spf1"])]`
fails with `NotResolved`. -/
theorem resolve_notResolved_of_no_address_witness :
    txtBackend.resolve = Except.error ResolveError.NotResolved := by
  refine resolve_notResolved_of_no_address.1 txtBackend [Record.TXT ["v=spf1"]] rfl ?_
  intro rec hmem
  rw [List.mem_singleton] at hmem
  rw [hmem]
  rfl

/-- Claim C3: for every backend (blocking or async), the derived default
`resolve()` returns an I/O error exactly when its `resolve_many` on `[AAAA, A]`
returned that same I/O error: the error is propagated unchanged with no
fallback, and `resolve()` never synthesizes an I/O error of its own. -/
theorem resolve_io_error_iff :
    (∀ (r : Resolver) (e : IOError),
      r.resolve = Except.error (ResolveError.IOErr e) ↔
      r.resolve_many [QueryType.AAAA, QueryType.A] =
        Except.error (ResolveError.IOErr e)) ∧
    (∀ (a : AsyncResolver) (e : IOError),
      a.resolve = Except.error (ResolveError.IOErr e) ↔
      a.resolve_many [QueryType.AAAA, QueryType.A] =
        Except.error (ResolveError.IOErr e)) := by
  constructor
  · intro r e
    constructor
    · intro h
      cases hmany : r.resolve_many [QueryType.AAAA, QueryType.A] with
      | error e2 =>
        rw [resolve_of_many_error r e2 hmany] at h
        injection h with h3
        rw [h3]
      | ok records =>
        rw [resolve_of_many_ok r records hmany] at h
        cases hfirst : firstIpAddr records with
        | some ip =>
          rw [hfirst] at h
          exact Except.noConfusion h
        | none =>
          rw [hfirst] at h
          injection h with h3
          exact ResolveError.noConfusion h3
    · intro h
      exact resolve_of_many_error r (ResolveError.IOErr e) h
  · intro a e
    constructor
    · intro h
      cases hmany : a.resolve_many [QueryType.AAAA, QueryType.A] with
      | error e2 =>
        rw [async_resolve_of_many_error a e2 hmany] at h
        injection h with h3
        rw [h3]
      | ok records =>
        rw [async_resolve_of_many_ok a records hmany] at h
        cases hfirst : firstIpAddr records with
        | some ip =>
          rw [hfirst] at h
          exact Except.noConfusion h
        | none =>
          rw [hfirst] at h
          injection h with h3
          exact ResolveError.noConfusion h3
    · intro h
      exact async_resolve_of_many_error a (ResolveError.IOErr e) h

/-- Witness for C3: a backend whose `resolve_many` fails with I/O error code 7
has `resolve()` failing with exactly that error. -/
theorem resolve_io_error_iff_witness :
    ioErrBackend.resolve = Except.error (ResolveError.IOErr ⟨7⟩) :=
  (resolve_io_error_iff.1 ioErrBackend ⟨7⟩).mpr rfl

/-- Claim C4: the derived default `resolve()` (blocking and async) invokes
`resolve_many` with exactly the query list `[AAAA, A]` in that order, and its
selection keeps exactly the records tagged as a single address: the first
address record is taken, and records of every other kind are discarded. -/
theorem resolve_query_list_and_selection :
    (∀ r : Resolver,
      (Resolver.resolveTraced r).2 =
        [BackendCall.resolveMany [QueryType.AAAA, QueryType.A]] ∧
      (Resolver.resolveTraced r).1 = r.resolve) ∧
    (∀ a : AsyncResolver,
      (AsyncResolver.resolveTraced a).2 =
        [BackendCall.resolveMany [QueryType.AAAA, QueryType.A]] ∧
      (AsyncResolver.resolveTraced a).1 = a.resolve) ∧
    (∀ (ip : IpAddr) (records : List Record),
      firstIpAddr (Record.IpAddr ip :: records) = some ip) ∧
    (∀ (rec : Record) (records : List Record), rec.isIpAddr = false →
      firstIpAddr (rec :: records) = firstIpAddr records) := by
  refine ⟨fun r => ⟨resolveTraced_trace r, resolveTraced_result r⟩,
    fun a => ⟨async_resolveTraced_trace a, async_resolveTraced_result a⟩,
    fun ip records => firstIpAddr_cons_addr ip records,
    fun rec records h => firstIpAddr_cons_skip rec records h⟩

/-- Witness for C4: a TXT record at the head of the result list is discarded
by the selection. -/
theorem resolve_query_list_and_selection_witness :
    firstIpAddr [Record.TXT ["v=spf1"], Record.IpAddr ipv6Loopback] =
      firstIpAddr [Record.IpAddr ipv6Loopback] :=
  resolve_query_list_and_selection.2.2.2 (Record.TXT ["v=spf1"])
    [Record.IpAddr ipv6Loopback] rfl

/-- Claim C5: for every backend that does not override them, the default
`clear_cache()` and `reload_system_config()` (blocking and async) always return
`Err(())`, never succeed, and their unit-failure signal type is distinct from
`ResolveError`. (The defaults are pure constant functions, so they have no
side effect in this embedding.) -/
theorem default_hooks_always_fail :
    (∀ r : Resolver, r.clear_cache = Except.error () ∧
      r.reload_system_config = Except.error ()) ∧
    (∀ a : AsyncResolver, a.clear_cache = Except.error () ∧
      a.reload_system_config = Except.error ()) ∧
    (∀ r : Resolver, ∀ u : Unit, r.clear_cache ≠ Except.ok u ∧
      r.reload_system_config ≠ Except.ok u) ∧
    (Unit : Type) ≠ ResolveError := by
  refine ⟨fun r => ⟨rfl, rfl⟩, fun a => ⟨rfl, rfl⟩,
    fun r u => ⟨fun h => Except.noConfusion h, fun h => Except.noConfusion h⟩, ?_⟩
  intro h
  have hall : ∀ x y : Unit, x = y := fun x y => rfl
  rw [h] at hall
  exact ResolveError.noConfusion
    (hall ResolveError.NotResolved (ResolveError.IOErr ⟨0⟩))

/-- Claim C6: the blocking `Resolver` and the suspend-capable `AsyncResolver`
behave identically modulo suspension: whenever two backends' `resolve_many`
agree on every input, the two derived `resolve()` agree, and the default
`clear_cache()` and `reload_system_config()` always agree. -/
theorem async_sync_equivalent (a : AsyncResolver) (r : Resolver)
    (h : ∀ queries, a.resolve_many queries = r.resolve_many queries) :
    a.resolve = r.resolve ∧ a.clear_cache = r.clear_cache ∧
    a.reload_system_config = r.reload_system_config := by
  refine ⟨?_, rfl, rfl⟩
  unfold AsyncResolver.resolve Resolver.resolve
  rw [h [QueryType.AAAA, QueryType.A]]

/-- Witness for C6: the async and blocking loopback backends, whose
`resolve_many` agree, have equal derived operations. -/
theorem async_sync_equivalent_witness :
    loopbackAsyncBackend.resolve = loopbackBackend.resolve ∧
    loopbackAsyncBackend.clear_cache = loopbackBackend.clear_cache ∧
    loopbackAsyncBackend.reload_system_config =
      loopbackBackend.reload_system_config :=
  async_sync_equivalent loopbackAsyncBackend loopbackBackend fun _ => rfl

/-- Claim C7: constructing a `Record::MX` from a list of `PriorityEntry`
values and reading the list back yields the same entries, each with its
original priority paired with its original value, in the original order. -/
theorem mx_roundtrip (entries : List (PriorityEntry IpAddr)) :
    (Record.MX entries).mxEntries = some entries ∧
    ((Record.MX entries).mxEntries.map fun l =>
        l.map fun entry => (entry.priority, entry.value)) =
      some (entries.map fun entry => (entry.priority, entry.value)) :=
  ⟨rfl, rfl⟩

/-- Claim C8: the derived default `resolve()` never returns an address that
appears only inside a `Record::MX` entry: any address it returns was carried
by a `Record::IpAddr` member of the `resolve_many` result, and when every
returned record is MX or TXT (even MX entries carrying addresses),
`resolve()` fails with `NotResolved`. -/
theorem resolve_ignores_mx_addresses :
    (∀ (r : Resolver) (ip : IpAddr), r.resolve = Except.ok ip →
      ∃ records, r.resolve_many [QueryType.AAAA, QueryType.A] =
        Except.ok records ∧ Record.IpAddr ip ∈ records) ∧
    (∀ (r : Resolver) (records : List Record),
      r.resolve_many [QueryType.AAAA, QueryType.A] = Except.ok records →
      (∀ rec ∈ records, rec.isMX = true ∨ rec.isTXT = true) →
      r.resolve = Except.error ResolveError.NotResolved) := by
  constructor
  · intro r ip h
    cases hmany : r.resolve_many [QueryType.AAAA, QueryType.A] with
    | error e =>
      rw [resolve_of_many_error r e hmany] at h
      exact Except.noConfusion h
    | ok records =>
      refine ⟨records, rfl, ?_⟩
      rw [resolve_of_many_ok r records hmany] at h
      cases hfirst : firstIpAddr records with
      | none =>
        rw [hfirst] at h
        exact Except.noConfusion h
      | some ip2 =>
        rw [hfirst] at h
        injection h with h2
        rw [← h2]
        exact mem_of_firstIpAddr records ip2 hfirst
  · intro r records hmany hkinds
    rw [resolve_of_many_ok r records hmany, firstIpAddr_eq_none records
      fun rec hmem => not_isIpAddr_of_mx_or_txt rec (hkinds rec hmem)]

/-- Witness for C8: a backend answering only an MX record that carries `::1`
still fails with `NotResolved`. -/
theorem resolve_ignores_mx_addresses_witness :
    mxOnlyBackend.resolve = Except.error ResolveError.NotResolved := by
  refine resolve_ignores_mx_addresses.2 mxOnlyBackend
    [Record.MX [⟨10, ipv6Loopback⟩]] rfl ?_
  intro rec hmem
  rw [List.mem_singleton] at hmem
  rw [hmem]
  exact Or.inl rfl

/-- Claim C9: one call to the derived default `resolve()` (blocking or async)
performs exactly one backend operation: a single `resolve_many` call; it never
invokes `resolve_specific`, `clear_cache`, or `reload_system_config`. -/
theorem resolve_single_backend_call :
    (∀ r : Resolver,
      (Resolver.resolveTraced r).1 = r.resolve ∧
      ((Resolver.resolveTraced r).2.countP fun c =>
        match c with
        | BackendCall.resolveMany _ => true
        | _ => false) = 1 ∧
      ∀ c ∈ (Resolver.resolveTraced r).2,
        c ≠ BackendCall.clearCache ∧ c ≠ BackendCall.reloadSystemConfig ∧
        ∀ q, c ≠ BackendCall.resolveSpecific q) ∧
    (∀ a : AsyncResolver,
      (AsyncResolver.resolveTraced a).1 = a.resolve ∧
      ((AsyncResolver.resolveTraced a).2.countP fun c =>
        match c with
        | BackendCall.resolveMany _ => true
        | _ => false) = 1 ∧
      ∀ c ∈ (AsyncResolver.resolveTraced a).2,
        c ≠ BackendCall.clearCache ∧ c ≠ BackendCall.reloadSystemConfig ∧
        ∀ q, c ≠ BackendCall.resolveSpecific q) := by
  constructor
  · intro r
    refine ⟨resolveTraced_result r, ?_, ?_⟩
    · rw [resolveTraced_trace r]
      rfl
    · rw [resolveTraced_trace r]
      intro c hc
      rw [List.mem_singleton] at hc
      rw [hc]
      exact ⟨fun h => BackendCall.noConfusion h,
        fun h => BackendCall.noConfusion h,
        fun q h => BackendCall.noConfusion h⟩
  · intro a
    refine ⟨async_resolveTraced_result a, ?_, ?_⟩
    · rw [async_resolveTraced_trace a]
      rfl
    · rw [async_resolveTraced_trace a]
      intro c hc
      rw [List.mem_singleton] at hc
      rw [hc]
      exact ⟨fun h => BackendCall.noConfusion h,
        fun h => BackendCall.noConfusion h,
        fun q h => BackendCall.noConfusion h⟩

/-- Claim C10: the derived default `resolve()` is a deterministic function of
the `resolve_many` result on `[AAAA, A]`: two backends (in either form) whose
`resolve_many` return equal results there have equal `resolve()` results. -/
theorem resolve_deterministic :
    (∀ r1 r2 : Resolver,
      r1.resolve_many [QueryType.AAAA, QueryType.A] =
        r2.resolve_many [QueryType.AAAA, QueryType.A] →
      r1.resolve = r2.resolve) ∧
    (∀ a1 a2 : AsyncResolver,
      a1.resolve_many [QueryType.AAAA, QueryType.A] =
        a2.resolve_many [QueryType.AAAA, QueryType.A] →
      a1.resolve = a2.resolve) := by
  constructor
  · intro r1 r2 h
    unfold Resolver.resolve
    rw [h]
  · intro a1 a2 h
    unfold AsyncResolver.resolve
    rw [h]

/-- Witness for C10: two backends that differ in `resolve_specific` but share
`resolve_many` have equal `resolve()` results. -/
theorem resolve_deterministic_witness :
    loopbackBackend.resolve = loopbackBackendVariant.resolve :=
  resolve_deterministic.1 loopbackBackend loopbackBackendVariant rfl

end ResolverTypes
